import Mathlib

/-!
Shallow embedding of the real-time collaboration engine of this repository
(app/websocket/connection_manager.py, app/websocket/message_handler.py,
app/websocket/security.py, app/routers/websocket_router.py) together with
theorems settling the specification claims about it.

Conventions of the embedding:
* Python strings used as document content are modeled as `List Char`; Python
  slice bounds (which clamp and accept negative indices) are modeled by
  `pySliceBound`.
* Python `dict` objects (which preserve insertion order) are modeled as
  association lists `List (String × α)`; assignment is `dictSet` (replace in
  place if the key exists, else append) and lookup is `dictFind`.
* Wall-clock instants (`datetime.utcnow()`) are modeled as rationals supplied
  explicitly by the caller; `uuid4()` values are modeled as explicitly
  supplied fresh strings.
* The outcome of a transport send (`UserConnection.send_message`) is modeled
  by a function `sendOk : String → Bool` keyed by connection id.
* A message's `data` dictionary is modeled by the record `MsgData` whose
  optional fields are exactly the keys the handlers read or write; an absent
  key is `none` and `Option.getD` mirrors Python's `dict.get` defaults.
-/

/-- Mirror of `ConnectionState` (connection_manager.py lines 22-27). -/
inductive ConnectionState where
  | connecting
  | connected
  | disconnecting
  | disconnected
deriving DecidableEq

/-- Mirror of `MessageType` (connection_manager.py lines 30-40). -/
inductive MessageType where
  | edit
  | presence
  | comment
  | undo
  | redo
  | sync
  | ack
  | error
  | heartbeat
deriving DecidableEq

/-- The `operation` sub-dictionary of an edit message's `data`; each key is
optional, read with `operation.get(key, default)` in the source. -/
structure EditOp where
  opType : Option String
  position : Option Int
  content : Option String
  length : Option Int
deriving DecidableEq

/-- An entry of `get_participants()` (connection_manager.py lines 226-238). -/
structure Participant where
  userId : String
  userName : String
  userColor : String
  cursorLine : Int
  cursorColumn : Int
  selStart : Int
  selEnd : Int
deriving DecidableEq

/-- One reply inside a comment's `replies` list
(message_handler.py lines 191-196). -/
structure CommentReply where
  id : String
  userId : String
  text : String
  createdAt : ℚ
deriving DecidableEq

/-- One comment dictionary of `CollaborationSession.comments`
(connection_manager.py lines 205-213). -/
structure SessionComment where
  id : String
  userId : String
  line : Int
  text : String
  resolved : Bool
  createdAt : ℚ
  replies : List CommentReply
deriving DecidableEq

/-- The dynamic `data` dictionary of a `WebSocketMessage`.  Fields cover every
key the websocket handlers read from inbound messages (operation,
presence_type, line, column, start, end, name, color, comment_type,
comment_id, text) and every key they write into outbound messages
(operation_id, user_id, user_name, status, cursor, selection, user_info,
content, version, participants, comments, edit_count). -/
structure MsgData where
  operation : Option EditOp
  presenceType : Option String
  line : Option Int
  column : Option Int
  selStart : Option Int
  selEnd : Option Int
  nameField : Option String
  colorField : Option String
  commentType : Option String
  commentId : Option String
  text : Option String
  ackOperationId : Option String
  userIdField : Option String
  userNameField : Option String
  statusField : Option String
  cursorField : Option (Int × Int)
  selectionField : Option (Int × Int)
  userInfoField : Option (String × String)
  contentField : Option (List Char)
  versionField : Option Nat
  participantsField : Option (List Participant)
  commentsField : Option (List SessionComment)
  editCountField : Option Nat
deriving DecidableEq

/-- Mirror of `WebSocketMessage` (connection_manager.py lines 43-51). -/
structure Message where
  msgType : MessageType
  sessionId : String
  userId : String
  timestamp : ℚ
  data : MsgData
  version : Nat
  operationId : Option String
deriving DecidableEq

/-- A `MsgData` with every key absent (the empty dictionary). -/
def MsgData.empty : MsgData :=
  { operation := none, presenceType := none, line := none, column := none,
    selStart := none, selEnd := none, nameField := none, colorField := none,
    commentType := none, commentId := none, text := none,
    ackOperationId := none, userIdField := none, userNameField := none,
    statusField := none, cursorField := none, selectionField := none,
    userInfoField := none, contentField := none, versionField := none,
    participantsField := none, commentsField := none, editCountField := none }

/-- The default `{}` operation dictionary (`message.data.get("operation", {})`). -/
def EditOp.empty : EditOp :=
  { opType := none, position := none, content := none, length := none }

/-- Mirror of `UserConnection` (connection_manager.py lines 54-69): identity,
session binding, lifecycle state, activity timestamp and presence metadata. -/
structure UserConnection where
  userId : String
  sessionId : String
  connectionId : String
  connState : ConnectionState
  createdAt : ℚ
  lastActivity : ℚ
  cursorLine : Int
  cursorColumn : Int
  selStart : Int
  selEnd : Int
  userName : String
  userColor : String
deriving DecidableEq

/-- Mirror of `UserConnection.is_active` (connection_manager.py lines 94-100). -/
def UserConnection.isActive (c : UserConnection) (now : ℚ) (timeout : ℚ) : Bool :=
  if c.connState = ConnectionState.disconnected then false
  else decide (now - c.lastActivity < timeout)

/-- Mirror of `CollaborationSession` mutable state
(connection_manager.py lines 113-128). -/
structure CollaborationSession where
  sessionId : String
  ownerId : String
  name : String
  createdAt : ℚ
  updatedAt : ℚ
  connections : List (String × UserConnection)
  editHistory : List Message
  comments : List SessionComment
  content : List Char
  version : Nat
deriving DecidableEq

/-- Python dict assignment `d[k] = v`: replace in place when the key exists,
append otherwise (insertion order preserved). -/
def dictSet {α : Type} (l : List (String × α)) (k : String) (v : α) :
    List (String × α) :=
  if l.any (fun kv => kv.1 = k) then
    l.map (fun kv => if kv.1 = k then (k, v) else kv)
  else l ++ [(k, v)]

/-- Python dict lookup `d.get(k)`: value of the first matching key. -/
def dictFind {α : Type} (l : List (String × α)) (k : String) : Option α :=
  match l with
  | [] => none
  | kv :: rest => if kv.1 = k then some kv.2 else dictFind rest k

/-- Replace the value stored under `k` when present; never inserts.  Models an
in-place mutation of an object that the dictionary aliases. -/
def dictReplace {α : Type} (l : List (String × α)) (k : String) (v : α) :
    List (String × α) :=
  l.map (fun kv => if kv.1 = k then (k, v) else kv)

/-- Effective bound of the Python slice index `i` for a sequence of length
`n`: a negative index counts from the end, and the result is clamped into
`[0, n]`.  This is the semantics of `s[:i]` and `s[i:]` for `int` `i`. -/
def pySliceBound (n : Nat) (i : Int) : Nat :=
  min (if i < 0 then i + n else i).toNat n

/-- Python `s[:p] + ins + s[p:]`: the insert branch of `apply_edit`
(connection_manager.py line 185). -/
def pyInsert (s : List Char) (p : Int) (ins : List Char) : List Char :=
  s.take (pySliceBound s.length p) ++ ins ++ s.drop (pySliceBound s.length p)

/-- Python `s[:p] + s[p+l:]`: the delete branch of `apply_edit`
(connection_manager.py line 190). -/
def pyDelete (s : List Char) (p l : Int) : List Char :=
  s.take (pySliceBound s.length p) ++ s.drop (pySliceBound s.length (p + l))

/-- Mirror of `CollaborationSession.apply_edit`
(connection_manager.py lines 175-199).  The body reads the operation with
total `dict.get` accesses and splices with clamping Python slices, so on the
modeled (well-typed) message shapes no exception can be raised: the
`except`-branch returning `False` is unreachable and the function always
increments the version, appends the message to the edit history and returns
`True` — there is no bounds check of any kind. -/
def applyEdit (s : CollaborationSession) (msg : Message) (now : ℚ) :
    Bool × CollaborationSession :=
  let op := msg.data.operation.getD EditOp.empty
  let newContent :=
    if op.opType = some "insert" then
      pyInsert s.content (op.position.getD 0) (op.content.getD "").toList
    else if op.opType = some "delete" then
      pyDelete s.content (op.position.getD 0) (op.length.getD 0)
    else s.content
  (true,
    { s with content := newContent, version := s.version + 1,
             editHistory := s.editHistory ++ [msg], updatedAt := now })

/-- Mirror of `CollaborationSession.add_connection`
(connection_manager.py lines 130-141): reject when 100 participants are
already registered, otherwise register under the connection id and move the
connection to `CONNECTED`. -/
def addConnection (s : CollaborationSession) (c : UserConnection) (now : ℚ) :
    Bool × CollaborationSession :=
  if 100 ≤ s.connections.length then (false, s)
  else
    let c1 := { c with connState := ConnectionState.connected }
    (true, { s with connections := dictSet s.connections c.connectionId c1,
                    updatedAt := now })

/-- Mirror of `CollaborationSession.add_comment`
(connection_manager.py lines 201-220); `freshId` models `uuid4()`. -/
def addComment (s : CollaborationSession) (msg : Message) (now : ℚ)
    (freshId : String) : Bool × CollaborationSession :=
  let comment : SessionComment :=
    { id := freshId, userId := msg.userId, line := msg.data.line.getD 0,
      text := msg.data.text.getD "", resolved := false, createdAt := now,
      replies := [] }
  (true, { s with comments := s.comments ++ [comment], updatedAt := now })

/-- Mirror of `CollaborationSession.get_participants`
(connection_manager.py lines 226-238). -/
def getParticipants (s : CollaborationSession) (now : ℚ) : List Participant :=
  (s.connections.filter (fun kv => kv.2.isActive now 300)).map
    (fun kv =>
      { userId := kv.2.userId, userName := kv.2.userName,
        userColor := kv.2.userColor, cursorLine := kv.2.cursorLine,
        cursorColumn := kv.2.cursorColumn, selStart := kv.2.selStart,
        selEnd := kv.2.selEnd })

/-- The skip test of `broadcast_message` (connection_manager.py line 160):
`if exclude_connection_id and conn_id == exclude_connection_id` — under
Python truthiness an empty-string exclude never skips anything. -/
def broadcastSkip (exclude : Option String) (cid : String) : Bool :=
  match exclude with
  | some e => if e = "" then false else decide (cid = e)
  | none => false

/-- The loop of `CollaborationSession.broadcast_message`
(connection_manager.py lines 150-173): iterate the connections in order,
skip the excluded id, send to every connection passing `is_active()`
(default 300 s timeout); a connection that is inactive or whose send fails
is removed afterwards, and a successful send refreshes `last_activity`.
Returns the surviving connection list and the ordered list of send attempts
as `(connection id, send succeeded)` pairs. -/
def broadcastRun (conns : List (String × UserConnection))
    (exclude : Option String) (now : ℚ) (sendOk : String → Bool) :
    List (String × UserConnection) × List (String × Bool) :=
  match conns with
  | [] => ([], [])
  | (cid, c) :: rest =>
    let r := broadcastRun rest exclude now sendOk
    if broadcastSkip exclude cid then ((cid, c) :: r.1, r.2)
    else if c.isActive now 300 then
      if sendOk cid then
        ((cid, { c with lastActivity := now }) :: r.1, (cid, true) :: r.2)
      else (r.1, (cid, false) :: r.2)
    else (r.1, r.2)

/-- Mirror of `CollaborationSession.broadcast_message` at the session level:
only the connection set changes. -/
def broadcastMessage (s : CollaborationSession) (exclude : Option String)
    (now : ℚ) (sendOk : String → Bool) :
    CollaborationSession × List (String × Bool) :=
  let r := broadcastRun s.connections exclude now sendOk
  ({ s with connections := r.1 }, r.2)

/-- Result of one `MessageHandler` invocation: the returned boolean, the
sender's connection and the session after the call, the messages sent
directly to the sender (acknowledgement / sync / heartbeat replies), the
broadcast send attempts as `(connection id, send succeeded)` pairs, and the
broadcast message itself when a broadcast ran. -/
structure HandlerResult where
  ok : Bool
  conn : UserConnection
  session : CollaborationSession
  senderSends : List Message
  broadcastSends : List (String × Bool)
  broadcastMsg : Option Message
deriving DecidableEq

/-- The operation dictionary carried by the broadcast message of a handler
result, when a broadcast ran and its data held an `operation` key. -/
def broadcastOp (r : HandlerResult) : Option EditOp :=
  match r.broadcastMsg with
  | some m => m.data.operation
  | none => none

/-- Mirror of `MessageHandler.handle_edit` (message_handler.py lines 56-99):
apply the edit, acknowledge to the sender (a successful ack send refreshes
the sender's `last_activity`, visible through the session's alias of the
sender connection), then broadcast the operation to every other connection. -/
def handleEdit (msg : Message) (conn : UserConnection)
    (s : CollaborationSession) (now : ℚ) (sendOk : String → Bool) :
    HandlerResult :=
  let op := msg.data.operation.getD EditOp.empty
  let a := applyEdit s msg now
  if a.1 = false then
    { ok := false, conn := conn, session := s, senderSends := [],
      broadcastSends := [], broadcastMsg := none }
  else
    let s1 := a.2
    let ackMsg : Message :=
      { msgType := MessageType.ack, sessionId := msg.sessionId,
        userId := msg.userId, timestamp := now,
        data := { MsgData.empty with ackOperationId := msg.operationId },
        version := s1.version, operationId := none }
    let conn1 :=
      if sendOk conn.connectionId then { conn with lastActivity := now }
      else conn
    let s2 := { s1 with
      connections := dictReplace s1.connections conn.connectionId conn1 }
    let bMsg : Message :=
      { msgType := MessageType.edit, sessionId := msg.sessionId,
        userId := msg.userId, timestamp := now,
        data := { MsgData.empty with operation := some op },
        version := s2.version, operationId := msg.operationId }
    let b := broadcastMessage s2 (some conn.connectionId) now sendOk
    { ok := true, conn := conn1, session := b.1, senderSends := [ackMsg],
      broadcastSends := b.2, broadcastMsg := some bMsg }

/-- Mirror of `MessageHandler.handle_presence`
(message_handler.py lines 101-150): update the sender connection's cursor /
selection / user-info in place (the session aliases the same object), then
broadcast the updated presence excluding the sender. -/
def handlePresence (msg : Message) (conn : UserConnection)
    (s : CollaborationSession) (now : ℚ) (sendOk : String → Bool) :
    HandlerResult :=
  let pt := msg.data.presenceType
  let conn1 :=
    if pt = some "cursor" then
      { conn with cursorLine := msg.data.line.getD 0,
                  cursorColumn := msg.data.column.getD 0 }
    else if pt = some "selection" then
      { conn with selStart := msg.data.selStart.getD 0,
                  selEnd := msg.data.selEnd.getD 0 }
    else if pt = some "user_info" then
      { conn with userName := msg.data.nameField.getD "Unknown",
                  userColor := msg.data.colorField.getD "#000000" }
    else conn
  let s1 := { s with
    connections := dictReplace s.connections conn.connectionId conn1 }
  let bMsg : Message :=
    { msgType := MessageType.presence, sessionId := msg.sessionId,
      userId := msg.userId, timestamp := now,
      data := { MsgData.empty with
        presenceType := pt, userIdField := some msg.userId,
        cursorField := some (conn1.cursorLine, conn1.cursorColumn),
        selectionField := some (conn1.selStart, conn1.selEnd),
        userInfoField := some (conn1.userName, conn1.userColor) },
      version := s1.version, operationId := none }
  let b := broadcastMessage s1 (some conn.connectionId) now sendOk
  { ok := true, conn := conn1, session := b.1, senderSends := [],
    broadcastSends := b.2, broadcastMsg := some bMsg }

/-- Update the first comment whose id the message's `comment_id` equals
(`for comment in session.comments: if comment["id"] == comment_id: ...;
break`); a `comment_id` of `None` matches no string id. -/
def updateFirstComment (l : List SessionComment) (cid : Option String)
    (f : SessionComment → SessionComment) : List SessionComment :=
  match l with
  | [] => []
  | c :: rest =>
    if cid = some c.id then f c :: rest
    else c :: updateFirstComment rest cid f

/-- Mirror of `MessageHandler.handle_comment`
(message_handler.py lines 152-241): sub-dispatch on `comment_type`.  `add`
appends a fresh comment; `reply` appends a reply to the first comment with
the given id (silently doing nothing when none matches); `resolve` sets
`resolved` on the first match (again silently doing nothing otherwise).  All
three branches broadcast to every participant with no exclusion and return
`True`; an unknown `comment_type` does nothing and still returns `True`. -/
def handleComment (msg : Message) (conn : UserConnection)
    (s : CollaborationSession) (now : ℚ) (freshId : String)
    (sendOk : String → Bool) : HandlerResult :=
  let ct := msg.data.commentType
  if ct = some "add" then
    let a := addComment s msg now freshId
    let bMsg : Message :=
      { msgType := MessageType.comment, sessionId := msg.sessionId,
        userId := msg.userId, timestamp := now,
        data := { MsgData.empty with
          commentType := some "add", line := some (msg.data.line.getD 0),
          text := some (msg.data.text.getD ""),
          userNameField := some conn.userName },
        version := a.2.version, operationId := none }
    let b := broadcastMessage a.2 none now sendOk
    { ok := true, conn := conn, session := b.1, senderSends := [],
      broadcastSends := b.2, broadcastMsg := some bMsg }
  else if ct = some "reply" then
    let reply : CommentReply :=
      { id := freshId, userId := msg.userId, text := msg.data.text.getD "",
        createdAt := now }
    let s1 := { s with
      comments := updateFirstComment s.comments msg.data.commentId
        (fun c => { c with replies := c.replies ++ [reply] }) }
    let bMsg : Message :=
      { msgType := MessageType.comment, sessionId := msg.sessionId,
        userId := msg.userId, timestamp := now,
        data := { MsgData.empty with
          commentType := some "reply", commentId := msg.data.commentId,
          text := some (msg.data.text.getD ""),
          userNameField := some conn.userName },
        version := s1.version, operationId := none }
    let b := broadcastMessage s1 none now sendOk
    { ok := true, conn := conn, session := b.1, senderSends := [],
      broadcastSends := b.2, broadcastMsg := some bMsg }
  else if ct = some "resolve" then
    let s1 := { s with
      comments := updateFirstComment s.comments msg.data.commentId
        (fun c => { c with resolved := true }) }
    let bMsg : Message :=
      { msgType := MessageType.comment, sessionId := msg.sessionId,
        userId := msg.userId, timestamp := now,
        data := { MsgData.empty with
          commentType := some "resolve", commentId := msg.data.commentId },
        version := s1.version, operationId := none }
    let b := broadcastMessage s1 none now sendOk
    { ok := true, conn := conn, session := b.1, senderSends := [],
      broadcastSends := b.2, broadcastMsg := some bMsg }
  else
    { ok := true, conn := conn, session := s, senderSends := [],
      broadcastSends := [], broadcastMsg := none }

/-- Mirror of `MessageHandler.handle_undo`
(message_handler.py lines 243-291): when the edit history is non-empty, read
the last entry's operation, reverse an insert by a clamped delete of the
payload length at the same position and reverse a delete by a clamped insert
of the message's own `content` field (default empty) at the same position,
increment the version, pop the history, and broadcast a message whose data
carries the original (popped) operation with no exclusion.  With empty
history nothing changes and `False` is returned. -/
def handleUndo (msg : Message) (conn : UserConnection)
    (s : CollaborationSession) (now : ℚ) (sendOk : String → Bool) :
    HandlerResult :=
  match s.editHistory.getLast? with
  | none =>
    { ok := false, conn := conn, session := s, senderSends := [],
      broadcastSends := [], broadcastMsg := none }
  | some lastEdit =>
    let op := lastEdit.data.operation.getD EditOp.empty
    let newContent :=
      if op.opType = some "insert" then
        pyDelete s.content (op.position.getD 0)
          ((op.content.getD "").length : Int)
      else if op.opType = some "delete" then
        pyInsert s.content (op.position.getD 0) (op.content.getD "").toList
      else s.content
    let s1 := { s with content := newContent, version := s.version + 1,
                       editHistory := s.editHistory.dropLast }
    let bMsg : Message :=
      { msgType := MessageType.undo, sessionId := msg.sessionId,
        userId := msg.userId, timestamp := now,
        data := { MsgData.empty with operation := some op },
        version := s1.version, operationId := none }
    let b := broadcastMessage s1 none now sendOk
    { ok := true, conn := conn, session := b.1, senderSends := [],
      broadcastSends := b.2, broadcastMsg := some bMsg }

/-- Mirror of `MessageHandler.handle_redo`
(message_handler.py lines 293-318): no server-side replay, the message data
is forwarded to every participant with no exclusion. -/
def handleRedo (msg : Message) (conn : UserConnection)
    (s : CollaborationSession) (now : ℚ) (sendOk : String → Bool) :
    HandlerResult :=
  let bMsg : Message :=
    { msgType := MessageType.redo, sessionId := msg.sessionId,
      userId := msg.userId, timestamp := now, data := msg.data,
      version := s.version, operationId := none }
  let b := broadcastMessage s none now sendOk
  { ok := true, conn := conn, session := b.1, senderSends := [],
    broadcastSends := b.2, broadcastMsg := some bMsg }

/-- Mirror of `MessageHandler.handle_sync`
(message_handler.py lines 320-349): send the full snapshot to the requesting
connection only; a successful direct send refreshes the sender's
`last_activity` (visible through the session's alias of that connection). -/
def handleSync (msg : Message) (conn : UserConnection)
    (s : CollaborationSession) (now : ℚ) (sendOk : String → Bool) :
    HandlerResult :=
  let syncMsg : Message :=
    { msgType := MessageType.sync, sessionId := msg.sessionId,
      userId := msg.userId, timestamp := now,
      data := { MsgData.empty with
        contentField := some s.content, versionField := some s.version,
        participantsField := some (getParticipants s now),
        commentsField := some s.comments,
        editCountField := some s.editHistory.length },
      version := s.version, operationId := none }
  let conn1 :=
    if sendOk conn.connectionId then { conn with lastActivity := now }
    else conn
  let s1 := { s with
    connections := dictReplace s.connections conn.connectionId conn1 }
  { ok := true, conn := conn1, session := s1, senderSends := [syncMsg],
    broadcastSends := [], broadcastMsg := none }

/-- Mirror of `MessageHandler.handle_heartbeat`
(message_handler.py lines 351-374): reply to the sender only, never
broadcast. -/
def handleHeartbeat (msg : Message) (conn : UserConnection)
    (s : CollaborationSession) (now : ℚ) (sendOk : String → Bool) :
    HandlerResult :=
  let hbMsg : Message :=
    { msgType := MessageType.heartbeat, sessionId := msg.sessionId,
      userId := msg.userId, timestamp := now,
      data := { MsgData.empty with statusField := some "alive" },
      version := s.version, operationId := none }
  let conn1 :=
    if sendOk conn.connectionId then { conn with lastActivity := now }
    else conn
  let s1 := { s with
    connections := dictReplace s.connections conn.connectionId conn1 }
  { ok := true, conn := conn1, session := s1, senderSends := [hbMsg],
    broadcastSends := [], broadcastMsg := none }

/-- Mirror of `MessageHandler.process_message`
(message_handler.py lines 26-54): pure dispatch on the type tag through the
handler dictionary; `ack` and `error` have no registered handler, so the
message is dropped and `False` returned. -/
def processMessage (msg : Message) (conn : UserConnection)
    (s : CollaborationSession) (now : ℚ) (freshId : String)
    (sendOk : String → Bool) : HandlerResult :=
  match msg.msgType with
  | MessageType.edit => handleEdit msg conn s now sendOk
  | MessageType.presence => handlePresence msg conn s now sendOk
  | MessageType.comment => handleComment msg conn s now freshId sendOk
  | MessageType.undo => handleUndo msg conn s now sendOk
  | MessageType.redo => handleRedo msg conn s now sendOk
  | MessageType.sync => handleSync msg conn s now sendOk
  | MessageType.heartbeat => handleHeartbeat msg conn s now sendOk
  | MessageType.ack =>
    { ok := false, conn := conn, session := s, senderSends := [],
      broadcastSends := [], broadcastMsg := none }
  | MessageType.error =>
    { ok := false, conn := conn, session := s, senderSends := [],
      broadcastSends := [], broadcastMsg := none }

/-- Mirror of `RateLimiter.check_rate_limit` (security.py lines 32-71) for one
`(user, session)` key: prune timestamps older than one minute, reject at the
per-minute ceiling, then reject when the count of timestamps newer than one
second reaches the per-second ceiling, otherwise record `now`.  Returns
`(allowed, reason, stored timestamp list)`; on a rejection the pruned list
(without `now`) is what remains stored. -/
def checkRateLimit (maxPerSecond maxPerMinute : Nat) (timestamps : List ℚ)
    (now : ℚ) : Bool × Option String × List ℚ :=
  let ts := timestamps.filter (fun t => decide (now - 60 < t))
  if maxPerMinute ≤ ts.length then
    (false, some "Rate limit exceeded (per minute)", ts)
  else
    let recent := (ts.filter (fun t => decide (now - 1 < t))).length
    if maxPerSecond ≤ recent then
      (false, some "Rate limit exceeded (per second)", ts)
    else (true, none, ts ++ [now])

/-- Run `check_rate_limit` on each arrival time in order, threading the stored
timestamp list, with the source's default ceilings (10 per second, 500 per
minute, security.py lines 19-27).  Returns the per-message decisions and the
final stored list. -/
def runLimiter (state : List ℚ) (arrivals : List ℚ) : List Bool × List ℚ :=
  match arrivals with
  | [] => ([], state)
  | t :: rest =>
    let r := checkRateLimit 10 500 state t
    let rr := runLimiter r.2.2 rest
    (r.1 :: rr.1, rr.2)

/-- The stages an inbound message can pass through between the transport and
the session mutation. -/
inductive PipelineStage where
  | rateCheck
  | sizeCheck
  | schemaCheck
  | abuseCheck
  | routerDispatch
deriving DecidableEq

/-- The stage trace of the receive loop body of `websocket_endpoint`
(websocket_router.py lines 79-94): each received message is handed directly
to `message_handler.process_message`.  None of `RateLimiter.check_rate_limit`,
`RateLimiter.check_message_size`, `MessageValidator.validate_message` or the
`SecurityChecker` screens is invoked anywhere on this path (they are defined
in app/websocket/security.py and exported by app/websocket/__init__.py, but
no caller in the repository feeds the message loop through them), so the
trace for every message is the single dispatch stage. -/
def receiveLoopStages (_msg : Message) : List PipelineStage :=
  [PipelineStage.routerDispatch]

/-- Mirror of `WebSocketConnectionManager` state
(connection_manager.py lines 241-249): the session index and the
user → connections index. -/
structure WebSocketConnectionManager where
  sessions : List (String × CollaborationSession)
  userConnections : List (String × List UserConnection)
deriving DecidableEq

/-- A fresh `CollaborationSession` (connection_manager.py lines 116-128). -/
def newSession (sessionId ownerId sname : String) (now : ℚ) :
    CollaborationSession :=
  { sessionId := sessionId, ownerId := ownerId, name := sname,
    createdAt := now, updatedAt := now, connections := [], editHistory := [],
    comments := [], content := [], version := 0 }

/-- A fresh `UserConnection` (connection_manager.py lines 57-69); `connId`
models `uuid4()`. -/
def newUserConnection (userId sessionId connId : String) (now : ℚ) :
    UserConnection :=
  { userId := userId, sessionId := sessionId, connectionId := connId,
    connState := ConnectionState.connecting, createdAt := now,
    lastActivity := now, cursorLine := 0, cursorColumn := 0, selStart := 0,
    selEnd := 0, userName := "", userColor := "" }

/-- Append a connection to the user index
(connection_manager.py lines 305-308). -/
def userIndexAdd (l : List (String × List UserConnection)) (uid : String)
    (c : UserConnection) : List (String × List UserConnection) :=
  match dictFind l uid with
  | some cs => dictSet l uid (cs ++ [c])
  | none => dictSet l uid [c]

/-- Mirror of `WebSocketConnectionManager.connect`
(connection_manager.py lines 281-315): accept the transport, get or create
the session, build a fresh connection and try `add_connection`.  On success
the connection (now `CONNECTED`) is returned and recorded in the user index;
on failure the connection is closed and `None` returned, the session left as
`add_connection` left it. -/
def managerConnect (m : WebSocketConnectionManager)
    (sessionId userId connId : String) (now : ℚ) :
    Option UserConnection × WebSocketConnectionManager :=
  let got : CollaborationSession × WebSocketConnectionManager :=
    match dictFind m.sessions sessionId with
    | some s => (s, m)
    | none =>
      let s := newSession sessionId userId "" now
      (s, { m with sessions := dictSet m.sessions sessionId s })
  let conn := newUserConnection userId sessionId connId now
  let a := addConnection got.1 conn now
  let m1 := { got.2 with sessions := dictSet got.2.sessions sessionId a.2 }
  if a.1 then
    let conn1 := { conn with connState := ConnectionState.connected }
    (some conn1,
      { m1 with userConnections := userIndexAdd m1.userConnections userId conn1 })
  else (none, m1)

/-- The operation dictionary of an insert edit. -/
def mkInsertOp (txt : String) (p : Int) : EditOp :=
  { opType := some "insert", position := some p, content := some txt,
    length := none }

/-- The operation dictionary of a delete edit; like a typical client it does
not include the deleted text in its payload. -/
def mkDeleteOp (p l : Int) : EditOp :=
  { opType := some "delete", position := some p, content := none,
    length := some l }

/-- An edit message carrying an insert operation. -/
def mkInsertMsg (txt : String) (p : Int) : Message :=
  { msgType := MessageType.edit, sessionId := "s1", userId := "alice",
    timestamp := 0,
    data := { MsgData.empty with
      operation := some (mkInsertOp txt p) },
    version := 1, operationId := some "op1" }

/-- An edit message carrying a delete operation. -/
def mkDeleteMsg (p l : Int) : Message :=
  { msgType := MessageType.edit, sessionId := "s1", userId := "alice",
    timestamp := 0,
    data := { MsgData.empty with
      operation := some (mkDeleteOp p l) },
    version := 1, operationId := some "op2" }

/-- A bare undo request message. -/
def mkUndoMsg : Message :=
  { msgType := MessageType.undo, sessionId := "s1", userId := "alice",
    timestamp := 0, data := MsgData.empty, version := 1,
    operationId := none }

/-- A presence message moving the sender's cursor. -/
def mkCursorMsg (l c : Int) : Message :=
  { msgType := MessageType.presence, sessionId := "s1", userId := "alice",
    timestamp := 0,
    data := { MsgData.empty with
      presenceType := some "cursor", line := some l, column := some c },
    version := 1, operationId := none }

/-- A comment message of the given sub-type aimed at the given comment id. -/
def mkCommentMsg (ctype cid : String) : Message :=
  { msgType := MessageType.comment, sessionId := "s1", userId := "alice",
    timestamp := 0,
    data := { MsgData.empty with
      commentType := some ctype, commentId := some cid, text := some "hi" },
    version := 1, operationId := none }

/-- A connection fixture. -/
def sampleConn (cid : String) : UserConnection :=
  newUserConnection "alice" "s1" cid 0

/-- A fresh session fixture: empty content, version 0, no history. -/
def freshSession : CollaborationSession := newSession "s1" "owner" "" 0

/-- The fresh session with one registered connection `c1`. -/
def sessionWithConn : CollaborationSession :=
  { freshSession with connections := [("c1", sampleConn "c1")] }

/-- A session already holding 100 connections (the participant cap). -/
def fullSession : CollaborationSession :=
  { freshSession with
    connections := List.replicate 100 ("c", sampleConn "c") }

/-- A manager fixture holding the full session. -/
def fullManager : WebSocketConnectionManager :=
  { sessions := [("s1", fullSession)], userConnections := [] }

/-- Slice-bound arithmetic: a nonnegative index within the length is taken
verbatim. -/
theorem pySliceBound_eq_toNat (n : Nat) (i : Int) (h0 : 0 ≤ i)
    (hn : i ≤ (n : Int)) : pySliceBound n i = i.toNat := by
  simp only [pySliceBound]
  split <;> omega

/-- Slice-bound arithmetic: an index at or past the length clamps to the
length. -/
theorem pySliceBound_of_ge (n : Nat) (i : Int) (h : (n : Int) ≤ i) :
    pySliceBound n i = n := by
  simp only [pySliceBound]
  split <;> omega

/-- Slice bounds never exceed the length. -/
theorem pySliceBound_le (n : Nat) (i : Int) : pySliceBound n i ≤ n := by
  simp only [pySliceBound]
  split <;> omega

/-- Slice bounds are monotone in the index. -/
theorem pySliceBound_mono (n : Nat) (i j : Int) (h : i ≤ j) (h0 : 0 ≤ i) :
    pySliceBound n i ≤ pySliceBound n j := by
  simp only [pySliceBound]
  split <;> split <;> omega

/-- Keys are untouched by `dictReplace`. -/
theorem dictReplace_keys {α : Type} (l : List (String × α)) (k : String)
    (v : α) : (dictReplace l k v).map Prod.fst = l.map Prod.fst := by
  induction l with
  | nil => rfl
  | cons kv t ih =>
    simp only [dictReplace, List.map_cons] at ih ⊢
    split <;> rename_i h <;> simp [ih]
    exact h.symm

/-- A lookup of a key other than the replaced one is unchanged. -/
theorem dictFind_dictReplace_ne {α : Type} (l : List (String × α))
    (k x : String) (v : α) (hx : x ≠ k) :
    dictFind (dictReplace l k v) x = dictFind l x := by
  induction l with
  | nil => rfl
  | cons kv t ih =>
    show dictFind ((if kv.1 = k then (k, v) else kv) :: dictReplace t k v) x
        = dictFind (kv :: t) x
    by_cases hk : kv.1 = k
    · rw [if_pos hk]
      show (if k = x then some v else dictFind (dictReplace t k v) x)
          = if kv.1 = x then some kv.2 else dictFind t x
      have h1 : ¬(k = x) := fun h => hx h.symm
      have h2 : ¬(kv.1 = x) := by rw [hk]; exact h1
      rw [if_neg h1, if_neg h2, ih]
    · rw [if_neg hk]
      show (if kv.1 = x then some kv.2 else dictFind (dictReplace t k v) x)
          = if kv.1 = x then some kv.2 else dictFind t x
      rw [ih]

/-- Replacing the bound value under `k` makes `k` look up the new value,
provided `k` was bound. -/
theorem dictFind_dictReplace_self {α : Type} (l : List (String × α))
    (k : String) (v : α) (h : (dictFind l k).isSome = true) :
    dictFind (dictReplace l k v) k = some v := by
  induction l with
  | nil => simp [dictFind] at h
  | cons kv t ih =>
    show dictFind ((if kv.1 = k then (k, v) else kv) :: dictReplace t k v) k
        = some v
    by_cases hk : kv.1 = k
    · rw [if_pos hk]
      show (if k = k then some v else dictFind (dictReplace t k v) k) = some v
      rw [if_pos rfl]
    · rw [if_neg hk]
      show (if kv.1 = k then some kv.2 else dictFind (dictReplace t k v) k)
          = some v
      rw [if_neg hk]
      simp only [dictFind, if_neg hk] at h
      exact ih h

/-- When the key is already bound, `dictSet` coincides with `dictReplace`. -/
theorem dictSet_eq_dictReplace {α : Type} (l : List (String × α))
    (k : String) (v : α) (h : (dictFind l k).isSome = true) :
    dictSet l k v = dictReplace l k v := by
  have hany : l.any (fun kv => kv.1 = k) = true := by
    induction l with
    | nil => simp [dictFind] at h
    | cons kv t ih =>
      show (decide (kv.1 = k) || t.any fun kv => kv.1 = k) = true
      by_cases hk : kv.1 = k
      · simp [hk]
      · simp only [dictFind, if_neg hk] at h
        simp [ih h]
  simp only [dictSet, dictReplace, if_pos hany]

/-- Re-binding a key to the value it already has changes no lookup result. -/
theorem dictFind_dictSet_of_found {α : Type} (l : List (String × α))
    (k : String) (v : α) (h : dictFind l k = some v) (x : String) :
    dictFind (dictSet l k v) x = dictFind l x := by
  rw [dictSet_eq_dictReplace l k v (by rw [h]; rfl)]
  by_cases hx : x = k
  · subst hx
    rw [dictFind_dictReplace_self l x v (by rw [h]; rfl), h]
  · exact dictFind_dictReplace_ne l k x v hx

/-- The excluded connection id never appears among the send attempts of a
broadcast. -/
theorem broadcastRun_excluded (conns : List (String × UserConnection))
    (e : String) (now : ℚ) (sendOk : String → Bool) (he : e ≠ "") :
    e ∉ (broadcastRun conns (some e) now sendOk).2.map Prod.fst := by
  induction conns with
  | nil => simp [broadcastRun]
  | cons kv t ih =>
    obtain ⟨cid, c⟩ := kv
    by_cases hcid : cid = e
    · have hskip : broadcastSkip (some e) cid = true := by
        simp [broadcastSkip, he, hcid]
      simp only [broadcastRun, hskip, if_true]
      exact ih
    · have hskip : broadcastSkip (some e) cid = false := by
        simp [broadcastSkip, he, hcid]
      have hne : ¬ e = cid := fun h => hcid h.symm
      by_cases hact : c.isActive now 300 = true
      · by_cases hok : sendOk cid = true
        · simp only [broadcastRun, hskip, hact, hok, Bool.false_eq_true,
            if_false, if_true, List.map_cons, List.mem_cons, hne]
          simp only [false_or]
          exact ih
        · have hok2 : sendOk cid = false := by
            cases hh : sendOk cid
            · rfl
            · exact absurd hh hok
          simp only [broadcastRun, hskip, hok2, Bool.false_eq_true, hact,
            if_false, if_true, List.map_cons, List.mem_cons, hne]
          simp only [false_or]
          exact ih
      · have hact2 : c.isActive now 300 = false := by
          cases hh : c.isActive now 300
          · rfl
          · exact absurd hh hact
        simp only [broadcastRun, hskip, hact2, Bool.false_eq_true, if_false]
        exact ih

/-- Every send attempt of a broadcast is addressed to one of the session's
connection ids. -/
theorem broadcastRun_sends_subset (conns : List (String × UserConnection))
    (exclude : Option String) (now : ℚ) (sendOk : String → Bool) :
    ∀ x ∈ (broadcastRun conns exclude now sendOk).2.map Prod.fst,
      x ∈ conns.map Prod.fst := by
  induction conns with
  | nil => simp [broadcastRun]
  | cons kv t ih =>
    obtain ⟨cid, c⟩ := kv
    intro x hx
    by_cases hskip : broadcastSkip exclude cid = true
    · simp only [broadcastRun, hskip, if_true] at hx
      exact List.mem_cons_of_mem _ (ih x hx)
    · have hskip2 : broadcastSkip exclude cid = false :=
        Bool.eq_false_iff.mpr hskip
      by_cases hact : c.isActive now 300 = true
      · by_cases hok : sendOk cid = true
        · simp only [broadcastRun, hskip2, Bool.false_eq_true, if_false,
            hact, hok, if_true, List.map_cons, List.mem_cons] at hx
          rcases hx with h1 | h2
          · exact List.mem_cons.mpr (Or.inl h1)
          · exact List.mem_cons_of_mem _ (ih x h2)
        · have hok2 : sendOk cid = false := Bool.eq_false_iff.mpr hok
          simp only [broadcastRun, hskip2, Bool.false_eq_true, if_false,
            hact, hok2, if_true, List.map_cons, List.mem_cons] at hx
          rcases hx with h1 | h2
          · exact List.mem_cons.mpr (Or.inl h1)
          · exact List.mem_cons_of_mem _ (ih x h2)
      · have hact2 : c.isActive now 300 = false := Bool.eq_false_iff.mpr hact
        simp only [broadcastRun, hskip2, hact2, Bool.false_eq_true,
          if_false] at hx
        exact List.mem_cons_of_mem _ (ih x hx)

/-- Under duplicate-free connection ids, a broadcast makes exactly one send
attempt to each registered, non-excluded, live connection. -/
theorem broadcastRun_count_live (conns : List (String × UserConnection))
    (exclude : Option String) (now : ℚ) (sendOk : String → Bool)
    (hnd : (conns.map Prod.fst).Nodup) (cid : String) (c : UserConnection)
    (hmem : (cid, c) ∈ conns) (hskip : broadcastSkip exclude cid = false)
    (hact : c.isActive now 300 = true) :
    ((broadcastRun conns exclude now sendOk).2.map Prod.fst).count cid = 1 := by
  induction conns with
  | nil => simp at hmem
  | cons kv t ih =>
    obtain ⟨cid1, c1⟩ := kv
    rw [List.map_cons, List.nodup_cons] at hnd
    rcases List.mem_cons.mp hmem with h1 | h2
    · obtain ⟨h1a, h1b⟩ := Prod.mk.inj h1
      subst h1a
      subst h1b
      have hnotin : cid ∉ (broadcastRun t exclude now sendOk).2.map Prod.fst :=
        fun hmem2 => hnd.1 (broadcastRun_sends_subset t exclude now sendOk cid hmem2)
      by_cases hok : sendOk cid = true
      · simp only [broadcastRun, hskip, Bool.false_eq_true, if_false, hact,
          hok, if_true, List.map_cons]
        rw [List.count_cons_self, List.count_eq_zero.mpr hnotin]
      · have hok2 : sendOk cid = false := Bool.eq_false_iff.mpr hok
        simp only [broadcastRun, hskip, Bool.false_eq_true, if_false, hact,
          hok2, if_true, List.map_cons]
        rw [List.count_cons_self, List.count_eq_zero.mpr hnotin]
    · have hcidne : cid ≠ cid1 := by
        intro h
        subst h
        exact hnd.1 (List.mem_map.mpr ⟨(cid, c), h2, rfl⟩)
      have hrec := ih hnd.2 h2
      by_cases hskip1 : broadcastSkip exclude cid1 = true
      · simp only [broadcastRun, hskip1, if_true]
        exact hrec
      · have hskip1f : broadcastSkip exclude cid1 = false :=
          Bool.eq_false_iff.mpr hskip1
        by_cases hact1 : c1.isActive now 300 = true
        · by_cases hok1 : sendOk cid1 = true
          · simp only [broadcastRun, hskip1f, Bool.false_eq_true, if_false,
              hact1, hok1, if_true, List.map_cons]
            rw [List.count_cons_of_ne hcidne]
            exact hrec
          · have hok1f : sendOk cid1 = false := Bool.eq_false_iff.mpr hok1
            simp only [broadcastRun, hskip1f, Bool.false_eq_true, if_false,
              hact1, hok1f, if_true, List.map_cons]
            rw [List.count_cons_of_ne hcidne]
            exact hrec
        · have hact1f : c1.isActive now 300 = false :=
            Bool.eq_false_iff.mpr hact1
          simp only [broadcastRun, hskip1f, hact1f, Bool.false_eq_true,
            if_false]
          exact hrec

/-- With no exclusion, every registered live connection receives a send
attempt. -/
theorem broadcastRun_none_mem (conns : List (String × UserConnection))
    (now : ℚ) (sendOk : String → Bool) (cid : String) (c : UserConnection)
    (hmem : (cid, c) ∈ conns) (hact : c.isActive now 300 = true) :
    cid ∈ (broadcastRun conns none now sendOk).2.map Prod.fst := by
  induction conns with
  | nil => simp at hmem
  | cons kv t ih =>
    obtain ⟨cid1, c1⟩ := kv
    have hskip1 : broadcastSkip none cid1 = false := rfl
    rcases List.mem_cons.mp hmem with h1 | h2
    · obtain ⟨h1a, h1b⟩ := Prod.mk.inj h1
      subst h1a
      subst h1b
      by_cases hok : sendOk cid = true
      · simp only [broadcastRun, hskip1, Bool.false_eq_true, if_false, hact,
          hok, if_true, List.map_cons]
        exact List.mem_cons_self _ _
      · have hok2 : sendOk cid = false := Bool.eq_false_iff.mpr hok
        simp only [broadcastRun, hskip1, Bool.false_eq_true, if_false, hact,
          hok2, if_true, List.map_cons]
        exact List.mem_cons_self _ _
    · have hrec := ih h2
      by_cases hact1 : c1.isActive now 300 = true
      · by_cases hok1 : sendOk cid1 = true
        · simp only [broadcastRun, hskip1, Bool.false_eq_true, if_false,
            hact1, hok1, if_true, List.map_cons]
          exact List.mem_cons_of_mem _ hrec
        · have hok1f : sendOk cid1 = false := Bool.eq_false_iff.mpr hok1
          simp only [broadcastRun, hskip1, Bool.false_eq_true, if_false,
            hact1, hok1f, if_true, List.map_cons]
          exact List.mem_cons_of_mem _ hrec
      · have hact1f : c1.isActive now 300 = false :=
          Bool.eq_false_iff.mpr hact1
        simp only [broadcastRun, hskip1, hact1f, Bool.false_eq_true, if_false]
        exact hrec

/-- When no comment carries the sought id, `updateFirstComment` is the
identity. -/
theorem updateFirstComment_no_match (l : List SessionComment)
    (cid : Option String) (f : SessionComment → SessionComment)
    (h : ∀ c ∈ l, cid ≠ some c.id) :
    updateFirstComment l cid f = l := by
  induction l with
  | nil => rfl
  | cons c t ih =>
    show (if cid = some c.id then f c :: t else c :: updateFirstComment t cid f)
        = c :: t
    rw [if_neg (h c (List.mem_cons_self c t))]
    rw [ih (fun x hx => h x (List.mem_cons_of_mem c hx))]

/-- Undoing an in-bounds insert by deleting the payload length at the same
position restores the original content. -/
theorem pyInsert_pyDelete (s c : List Char) (p : Int) (h0 : 0 ≤ p)
    (hn : p ≤ (s.length : Int)) :
    pyDelete (pyInsert s p c) p (c.length : Int) = s := by
  have hb : pySliceBound s.length p = p.toNat :=
    pySliceBound_eq_toNat _ _ h0 hn
  have hlt : (s.take p.toNat).length = p.toNat := by
    rw [List.length_take]
    omega
  unfold pyInsert pyDelete
  rw [hb]
  have hlen : (s.take p.toNat ++ c ++ s.drop p.toNat).length
      = s.length + c.length := by
    simp only [List.length_append, List.length_take, List.length_drop]
    omega
  have hb1 : pySliceBound (s.take p.toNat ++ c ++ s.drop p.toNat).length p
      = p.toNat := by
    rw [hlen]
    exact pySliceBound_eq_toNat _ _ h0 (by omega)
  have hb2 : pySliceBound (s.take p.toNat ++ c ++ s.drop p.toNat).length
      (p + (c.length : Int)) = p.toNat + c.length := by
    rw [hlen, pySliceBound_eq_toNat _ _ (by omega) (by omega)]
    omega
  rw [hb1, hb2]
  have htake : (s.take p.toNat ++ c ++ s.drop p.toNat).take p.toNat
      = s.take p.toNat := by
    rw [List.append_assoc]
    exact List.take_left' hlt
  have hlen2 : (s.take p.toNat ++ c).length = p.toNat + c.length := by
    rw [List.length_append, hlt]
  have hdrop : (s.take p.toNat ++ c ++ s.drop p.toNat).drop
      (p.toNat + c.length) = s.drop p.toNat := List.drop_left' hlen2
  rw [htake, hdrop, List.take_append_drop]

/-- Undoing an in-bounds delete by re-inserting exactly the deleted slice at
the same position restores the original content. -/
theorem pyDelete_pyInsert (s : List Char) (p L : Int) (c : List Char)
    (h0 : 0 ≤ p) (hn : p ≤ (s.length : Int)) (hL : 0 ≤ L)
    (hc : c = (s.drop p.toNat).take (pySliceBound s.length (p + L) - p.toNat)) :
    pyInsert (pyDelete s p L) p c = s := by
  have hb : pySliceBound s.length p = p.toNat :=
    pySliceBound_eq_toNat _ _ h0 hn
  have hb2le : pySliceBound s.length (p + L) ≤ s.length := pySliceBound_le _ _
  have hbb2 : p.toNat ≤ pySliceBound s.length (p + L) := by
    have := pySliceBound_mono s.length p (p + L) (by omega) h0
    omega
  have hdel : pyDelete s p L
      = s.take p.toNat ++ s.drop (pySliceBound s.length (p + L)) := by
    unfold pyDelete
    rw [hb]
  rw [hdel]
  have hlt : (s.take p.toNat).length = p.toNat := by
    rw [List.length_take]
    omega
  unfold pyInsert
  have hlen : (s.take p.toNat ++ s.drop (pySliceBound s.length (p + L))).length
      = p.toNat + (s.length - pySliceBound s.length (p + L)) := by
    simp only [List.length_append, List.length_take, List.length_drop]
    omega
  have hb1 : pySliceBound
      (s.take p.toNat ++ s.drop (pySliceBound s.length (p + L))).length p
      = p.toNat := by
    rw [hlen]
    exact pySliceBound_eq_toNat _ _ h0 (by omega)
  rw [hb1]
  have htake : (s.take p.toNat ++ s.drop (pySliceBound s.length (p + L))).take
      p.toNat = s.take p.toNat := List.take_left' hlt
  have hdrop : (s.take p.toNat ++ s.drop (pySliceBound s.length (p + L))).drop
      p.toNat = s.drop (pySliceBound s.length (p + L)) := List.drop_left' hlt
  rw [htake, hdrop, hc]
  have e1 : (s.drop p.toNat).drop (pySliceBound s.length (p + L) - p.toNat)
      = s.drop (pySliceBound s.length (p + L)) := by
    rw [List.drop_drop]
    congr 1
    omega
  have e2 : (s.drop p.toNat).take (pySliceBound s.length (p + L) - p.toNat)
      ++ s.drop (pySliceBound s.length (p + L)) = s.drop p.toNat := by
    rw [← e1, List.take_append_drop]
  rw [List.append_assoc, e2, List.take_append_drop]

/-- Claim C1 counterexample: inserting "Hello" at position 7 into a fresh
session whose content is empty (so the position is far out of bounds) is
not rejected: `apply_edit` returns success, the clamped insert lands at the
end, the version rises to 1 and the message is appended to the history —
contradicting the claim that content and version are left unchanged and a
rejection is returned. -/
theorem applyEdit_oob_counterexample :
    (applyEdit freshSession (mkInsertMsg "Hello" 7) 0).1 = true
  ∧ (applyEdit freshSession (mkInsertMsg "Hello" 7) 0).2.content
      = "Hello".toList
  ∧ (applyEdit freshSession (mkInsertMsg "Hello" 7) 0).2.version = 1
  ∧ (applyEdit freshSession (mkInsertMsg "Hello" 7) 0).2.editHistory
      = [mkInsertMsg "Hello" 7] := by
  decide

/-- Claim C1 (amended): `apply_edit` performs no bounds check at all.  An
insert whose position is at or beyond the end of the content buffer is not
rejected: the call succeeds, the version is incremented, the message is
appended to the edit history, and the payload is spliced at the clamped
position (the end of the buffer). -/
theorem applyEdit_oob_clamped (s : CollaborationSession) (msg : Message)
    (now : ℚ) (op : EditOp) (hop : msg.data.operation = some op)
    (hins : op.opType = some "insert")
    (hoob : (s.content.length : Int) ≤ op.position.getD 0) :
    (applyEdit s msg now).1 = true
  ∧ (applyEdit s msg now).2.version = s.version + 1
  ∧ (applyEdit s msg now).2.editHistory = s.editHistory ++ [msg]
  ∧ (applyEdit s msg now).2.content
      = s.content ++ (op.content.getD "").toList := by
  refine ⟨rfl, rfl, rfl, ?_⟩
  have h1 : (applyEdit s msg now).2.content
      = pyInsert s.content (op.position.getD 0) (op.content.getD "").toList := by
    simp [applyEdit, hop, hins]
  rw [h1]
  unfold pyInsert
  rw [pySliceBound_of_ge _ _ hoob, List.take_length, List.drop_length,
    List.append_nil]

/-- Witness for the amended C1 theorem at a concrete out-of-bounds insert. -/
theorem applyEdit_oob_clamped_witness :
    (mkInsertMsg "Hi" 5).data.operation = some (mkInsertOp "Hi" 5)
  ∧ (mkInsertOp "Hi" 5).opType = some "insert"
  ∧ ((freshSession.content.length : Int) ≤ (mkInsertOp "Hi" 5).position.getD 0)
  ∧ ((applyEdit freshSession (mkInsertMsg "Hi" 5) 0).1 = true
    ∧ (applyEdit freshSession (mkInsertMsg "Hi" 5) 0).2.version
        = freshSession.version + 1
    ∧ (applyEdit freshSession (mkInsertMsg "Hi" 5) 0).2.editHistory
        = freshSession.editHistory ++ [mkInsertMsg "Hi" 5]
    ∧ (applyEdit freshSession (mkInsertMsg "Hi" 5) 0).2.content
        = freshSession.content ++ ((mkInsertOp "Hi" 5).content.getD "").toList) :=
  ⟨rfl, rfl, by decide,
    applyEdit_oob_clamped freshSession (mkInsertMsg "Hi" 5) 0
      (mkInsertOp "Hi" 5) rfl rfl (by decide)⟩

/-- Claim C3 counterexample: a concrete edit message reaches the Router's
dispatch stage while no rate / size / schema / abuse stage appears anywhere
in its pipeline trace — the receive loop invokes none of the four guards. -/
theorem guard_pipeline_counterexample :
    PipelineStage.routerDispatch ∈ receiveLoopStages (mkInsertMsg "x" 0)
  ∧ PipelineStage.rateCheck ∉ receiveLoopStages (mkInsertMsg "x" 0)
  ∧ PipelineStage.sizeCheck ∉ receiveLoopStages (mkInsertMsg "x" 0)
  ∧ PipelineStage.schemaCheck ∉ receiveLoopStages (mkInsertMsg "x" 0)
  ∧ PipelineStage.abuseCheck ∉ receiveLoopStages (mkInsertMsg "x" 0) := by
  decide

/-- Claim C3 (amended): the receive loop performs no guard checks at all —
every inbound message goes straight to the Router's dispatch (the four
checks exist in security.py but are never invoked on the message path), and
in particular an edit message is applied to the session unconditionally. -/
theorem receive_loop_no_guards (msg : Message) (conn : UserConnection)
    (s : CollaborationSession) (now : ℚ) (freshId : String)
    (sendOk : String → Bool) (hty : msg.msgType = MessageType.edit) :
    receiveLoopStages msg = [PipelineStage.routerDispatch]
  ∧ PipelineStage.rateCheck ∉ receiveLoopStages msg
  ∧ PipelineStage.sizeCheck ∉ receiveLoopStages msg
  ∧ PipelineStage.schemaCheck ∉ receiveLoopStages msg
  ∧ PipelineStage.abuseCheck ∉ receiveLoopStages msg
  ∧ (processMessage msg conn s now freshId sendOk).session.editHistory
      = s.editHistory ++ [msg] := by
  refine ⟨rfl, by simp [receiveLoopStages], by simp [receiveLoopStages],
    by simp [receiveLoopStages], by simp [receiveLoopStages], ?_⟩
  simp [processMessage, hty, handleEdit, applyEdit, broadcastMessage]

/-- Witness for the amended C3 theorem at a concrete edit message. -/
theorem receive_loop_no_guards_witness :
    (mkInsertMsg "x" 1).msgType = MessageType.edit
  ∧ (receiveLoopStages (mkInsertMsg "x" 1) = [PipelineStage.routerDispatch]
    ∧ PipelineStage.rateCheck ∉ receiveLoopStages (mkInsertMsg "x" 1)
    ∧ PipelineStage.sizeCheck ∉ receiveLoopStages (mkInsertMsg "x" 1)
    ∧ PipelineStage.schemaCheck ∉ receiveLoopStages (mkInsertMsg "x" 1)
    ∧ PipelineStage.abuseCheck ∉ receiveLoopStages (mkInsertMsg "x" 1)
    ∧ (processMessage (mkInsertMsg "x" 1) (sampleConn "c1") freshSession 0 "f"
        (fun _ => true)).session.editHistory
        = freshSession.editHistory ++ [mkInsertMsg "x" 1]) :=
  ⟨rfl, receive_loop_no_guards (mkInsertMsg "x" 1) (sampleConn "c1")
    freshSession 0 "f" (fun _ => true) rfl⟩

/-- Claim C4: inserting "Hello" at position 0 into a session with empty
content and version 0 yields content "Hello" at version 1, and an
immediately following undo restores the empty content at version 2. -/
theorem insert_undo_round_trip :
    (handleEdit (mkInsertMsg "Hello" 0) (sampleConn "c1") sessionWithConn 0
        (fun _ => true)).session.content = "Hello".toList
  ∧ (handleEdit (mkInsertMsg "Hello" 0) (sampleConn "c1") sessionWithConn 0
        (fun _ => true)).session.version = 1
  ∧ (handleUndo mkUndoMsg (sampleConn "c1")
        (handleEdit (mkInsertMsg "Hello" 0) (sampleConn "c1") sessionWithConn 0
          (fun _ => true)).session 0 (fun _ => true)).session.content
      = sessionWithConn.content
  ∧ (handleUndo mkUndoMsg (sampleConn "c1")
        (handleEdit (mkInsertMsg "Hello" 0) (sampleConn "c1") sessionWithConn 0
          (fun _ => true)).session 0 (fun _ => true)).session.version = 2 := by
  decide

/-- Claim C2 counterexample: after one successful insert followed by one
undo, the session's version is 2 while the edit history is empty, so the
claimed invariant `version == len(edit_history)` does not hold at all
times. -/
theorem version_history_counterexample :
    (handleUndo mkUndoMsg (sampleConn "c1")
        ((applyEdit freshSession (mkInsertMsg "Hello" 0) 0).2) 0
        (fun _ => true)).session.version = 2
  ∧ (handleUndo mkUndoMsg (sampleConn "c1")
        ((applyEdit freshSession (mkInsertMsg "Hello" 0) 0).2) 0
        (fun _ => true)).session.editHistory.length = 0
  ∧ ¬ ((handleUndo mkUndoMsg (sampleConn "c1")
        ((applyEdit freshSession (mkInsertMsg "Hello" 0) 0).2) 0
        (fun _ => true)).session.version
      = (handleUndo mkUndoMsg (sampleConn "c1")
        ((applyEdit freshSession (mkInsertMsg "Hello" 0) 0).2) 0
        (fun _ => true)).session.editHistory.length) := by
  decide

/-- Claim C2 (amended): the invariant `version == len(edit_history)` is
preserved by every message type except undo — in particular each successful
edit increments both together, and presence / comment / redo / sync /
heartbeat messages change neither — but an undo on a non-empty history
increments the version while popping the history, leaving
`version = old length + 1` against `length = old length - 1`, so the
invariant is broken from the first undo on. -/
theorem version_history_invariant_step (msg : Message)
    (conn : UserConnection) (s : CollaborationSession) (now : ℚ)
    (freshId : String) (sendOk : String → Bool)
    (hinv : s.version = s.editHistory.length) :
    (msg.msgType ≠ MessageType.undo →
      (processMessage msg conn s now freshId sendOk).session.version
        = (processMessage msg conn s now freshId sendOk).session.editHistory.length)
  ∧ (msg.msgType = MessageType.undo → s.editHistory ≠ [] →
      (processMessage msg conn s now freshId sendOk).session.version
          = s.editHistory.length + 1
        ∧ (processMessage msg conn s now freshId sendOk).session.editHistory.length
          = s.editHistory.length - 1
        ∧ ¬ ((processMessage msg conn s now freshId sendOk).session.version
          = (processMessage msg conn s now freshId sendOk).session.editHistory.length)) := by
  constructor
  · intro hne
    cases hty : msg.msgType with
    | edit =>
      simp [processMessage, hty, handleEdit, applyEdit, broadcastMessage, hinv]
    | presence =>
      simp [processMessage, hty, handlePresence, broadcastMessage, hinv]
    | comment =>
      simp only [processMessage, hty, handleComment, addComment,
        broadcastMessage]
      split_ifs <;> simp [hinv]
    | undo => exact absurd hty hne
    | redo =>
      simp [processMessage, hty, handleRedo, broadcastMessage, hinv]
    | sync =>
      simp [processMessage, hty, handleSync, hinv]
    | ack => simp [processMessage, hty, hinv]
    | error => simp [processMessage, hty, hinv]
    | heartbeat =>
      simp [processMessage, hty, handleHeartbeat, hinv]
  · intro hty hne
    have hpos : 0 < s.editHistory.length := List.length_pos.mpr hne
    cases hlast : s.editHistory.getLast? with
    | none =>
      rw [List.getLast?_eq_none_iff] at hlast
      exact absurd hlast hne
    | some m =>
      refine ⟨?_, ?_, ?_⟩ <;>
        simp [processMessage, hty, handleUndo, hlast, broadcastMessage,
          List.length_dropLast, hinv] <;>
        omega

/-- Witness for the amended C2 theorem at a concrete presence message on a
fresh session. -/
theorem version_history_invariant_step_witness :
    freshSession.version = freshSession.editHistory.length
  ∧ (((mkCursorMsg 1 2).msgType ≠ MessageType.undo →
      (processMessage (mkCursorMsg 1 2) (sampleConn "c1") freshSession 0 "f"
          (fun _ => true)).session.version
        = (processMessage (mkCursorMsg 1 2) (sampleConn "c1") freshSession 0 "f"
          (fun _ => true)).session.editHistory.length)
    ∧ ((mkCursorMsg 1 2).msgType = MessageType.undo →
        freshSession.editHistory ≠ [] →
        (processMessage (mkCursorMsg 1 2) (sampleConn "c1") freshSession 0 "f"
            (fun _ => true)).session.version
          = freshSession.editHistory.length + 1
        ∧ (processMessage (mkCursorMsg 1 2) (sampleConn "c1") freshSession 0 "f"
            (fun _ => true)).session.editHistory.length
          = freshSession.editHistory.length - 1
        ∧ ¬ ((processMessage (mkCursorMsg 1 2) (sampleConn "c1") freshSession 0
            "f" (fun _ => true)).session.version
          = (processMessage (mkCursorMsg 1 2) (sampleConn "c1") freshSession 0
            "f" (fun _ => true)).session.editHistory.length))) :=
  ⟨rfl, version_history_invariant_step (mkCursorMsg 1 2) (sampleConn "c1")
    freshSession 0 "f" (fun _ => true) rfl⟩

/-- Claim C5 counterexample: in a session whose content became "abc" by an
insert and was then emptied by a delete whose message did not carry the
deleted text, undo does not restore the pre-delete content "abc" (it
re-inserts the delete message's absent `content` payload, i.e. nothing), and
the message broadcast by undo carries the original delete operation, not its
structural inverse insert. -/
theorem undo_delete_counterexample :
    (applyEdit freshSession (mkInsertMsg "abc" 0) 0).2.content = "abc".toList
  ∧ (applyEdit (applyEdit freshSession (mkInsertMsg "abc" 0) 0).2
        (mkDeleteMsg 0 3) 0).2.content = ([] : List Char)
  ∧ (handleUndo mkUndoMsg (sampleConn "c1")
        (applyEdit (applyEdit freshSession (mkInsertMsg "abc" 0) 0).2
          (mkDeleteMsg 0 3) 0).2 0 (fun _ => true)).ok = true
  ∧ (handleUndo mkUndoMsg (sampleConn "c1")
        (applyEdit (applyEdit freshSession (mkInsertMsg "abc" 0) 0).2
          (mkDeleteMsg 0 3) 0).2 0 (fun _ => true)).session.content
      = ([] : List Char)
  ∧ ¬ ((handleUndo mkUndoMsg (sampleConn "c1")
        (applyEdit (applyEdit freshSession (mkInsertMsg "abc" 0) 0).2
          (mkDeleteMsg 0 3) 0).2 0 (fun _ => true)).session.content
      = "abc".toList)
  ∧ (handleUndo mkUndoMsg (sampleConn "c1")
        (applyEdit (applyEdit freshSession (mkInsertMsg "abc" 0) 0).2
          (mkDeleteMsg 0 3) 0).2 0 (fun _ => true)).session.version = 3
  ∧ broadcastOp (handleUndo mkUndoMsg (sampleConn "c1")
        (applyEdit (applyEdit freshSession (mkInsertMsg "abc" 0) 0).2
          (mkDeleteMsg 0 3) 0).2 0 (fun _ => true)) = some (mkDeleteOp 0 3)
  ∧ ¬ (((broadcastOp (handleUndo mkUndoMsg (sampleConn "c1")
        (applyEdit (applyEdit freshSession (mkInsertMsg "abc" 0) 0).2
          (mkDeleteMsg 0 3) 0).2 0 (fun _ => true))).getD EditOp.empty).opType
      = some "insert") := by
  decide

/-- Claim C5 (amended): undo pops the most recent history entry and
increments the version; it reverses an insert exactly (delete of the payload
length at the same offset, restoring the pre-insert content for in-bounds
positions), but it reverses a delete by inserting the delete message's own
`content` field (default empty), which restores the pre-delete content only
when that field carried exactly the deleted slice; the message broadcast by
undo carries the original popped operation, not the computed inverse; with
empty history undo returns failure and changes nothing. -/
theorem undo_structural_inverse (s : CollaborationSession) (mE mU : Message)
    (conn : UserConnection) (n1 n2 : ℚ) (sendOk : String → Bool)
    (op : EditOp) (p : Int) (hop : mE.data.operation = some op)
    (hp : op.position = some p) (h0 : 0 ≤ p)
    (hn : p ≤ (s.content.length : Int)) :
    (s.editHistory = [] →
      handleUndo mU conn s n2 sendOk
        = { ok := false, conn := conn, session := s, senderSends := [],
            broadcastSends := [], broadcastMsg := none })
  ∧ (handleUndo mU conn ((applyEdit s mE n1).2) n2 sendOk).session.editHistory
      = s.editHistory
  ∧ (handleUndo mU conn ((applyEdit s mE n1).2) n2 sendOk).session.version
      = s.version + 2
  ∧ broadcastOp (handleUndo mU conn ((applyEdit s mE n1).2) n2 sendOk)
      = some op
  ∧ (op.opType = some "insert" →
      (handleUndo mU conn ((applyEdit s mE n1).2) n2 sendOk).session.content
        = s.content)
  ∧ (op.opType = some "delete" → 0 ≤ op.length.getD 0 →
      (op.content.getD "").toList
        = (s.content.drop p.toNat).take
            (pySliceBound s.content.length (p + op.length.getD 0) - p.toNat) →
      (handleUndo mU conn ((applyEdit s mE n1).2) n2 sendOk).session.content
        = s.content) := by
  have hhist : (applyEdit s mE n1).2.editHistory = s.editHistory ++ [mE] := rfl
  have hlast : (applyEdit s mE n1).2.editHistory.getLast? = some mE := by
    rw [hhist]
    simp
  refine ⟨?_, ?_, ?_, ?_, ?_, ?_⟩
  · intro hemp
    simp [handleUndo, hemp]
  · simp [handleUndo, hlast, broadcastMessage, hhist]
  · simp [handleUndo, hlast, broadcastMessage, applyEdit]
  · simp [handleUndo, hlast, broadcastMessage, broadcastOp, hop]
  · intro hins
    have hcont : (applyEdit s mE n1).2.content
        = pyInsert s.content p (op.content.getD "").toList := by
      simp [applyEdit, hop, hins, hp]
    have hlen : ((op.content.getD "").length : Int)
        = ((op.content.getD "").toList.length : Int) := rfl
    simp only [handleUndo, hlast, broadcastMessage, hop, Option.getD_some,
      hins, if_pos rfl, hp]
    rw [hcont, hlen]
    exact pyInsert_pyDelete s.content (op.content.getD "").toList p h0 hn
  · intro hdel hL hc
    have hcont : (applyEdit s mE n1).2.content
        = pyDelete s.content p (op.length.getD 0) := by
      simp [applyEdit, hop, hdel, hp]
    have hne : ¬ (op.opType = some "insert") := by
      rw [hdel]
      simp
    simp only [handleUndo, hlast, broadcastMessage, hop, Option.getD_some,
      hdel, hne, if_neg, if_pos rfl, hp]
    rw [hcont]
    exact pyDelete_pyInsert s.content p (op.length.getD 0)
      (op.content.getD "").toList h0 hn hL hc

/-- A session fixture whose content is "ab". -/
def abSession : CollaborationSession := { freshSession with content := "ab".toList }

/-- Witness for the amended C5 theorem at a concrete in-bounds insert. -/
theorem undo_structural_inverse_witness :
    (mkInsertMsg "XY" 1).data.operation = some (mkInsertOp "XY" 1)
  ∧ (mkInsertOp "XY" 1).position = some 1
  ∧ (0 : Int) ≤ 1
  ∧ (1 : Int) ≤ (abSession.content.length : Int)
  ∧ ((abSession.editHistory = [] →
      handleUndo mkUndoMsg (sampleConn "c1") abSession 0 (fun _ => true)
        = { ok := false, conn := sampleConn "c1", session := abSession,
            senderSends := [], broadcastSends := [], broadcastMsg := none })
    ∧ (handleUndo mkUndoMsg (sampleConn "c1")
        ((applyEdit abSession (mkInsertMsg "XY" 1) 0).2) 0
        (fun _ => true)).session.editHistory = abSession.editHistory
    ∧ (handleUndo mkUndoMsg (sampleConn "c1")
        ((applyEdit abSession (mkInsertMsg "XY" 1) 0).2) 0
        (fun _ => true)).session.version = abSession.version + 2
    ∧ broadcastOp (handleUndo mkUndoMsg (sampleConn "c1")
        ((applyEdit abSession (mkInsertMsg "XY" 1) 0).2) 0 (fun _ => true))
        = some (mkInsertOp "XY" 1)
    ∧ ((mkInsertOp "XY" 1).opType = some "insert" →
        (handleUndo mkUndoMsg (sampleConn "c1")
          ((applyEdit abSession (mkInsertMsg "XY" 1) 0).2) 0
          (fun _ => true)).session.content = abSession.content)
    ∧ ((mkInsertOp "XY" 1).opType = some "delete" →
        0 ≤ (mkInsertOp "XY" 1).length.getD 0 →
        ((mkInsertOp "XY" 1).content.getD "").toList
          = (abSession.content.drop (1 : Int).toNat).take
              (pySliceBound abSession.content.length
                (1 + (mkInsertOp "XY" 1).length.getD 0) - (1 : Int).toNat) →
        (handleUndo mkUndoMsg (sampleConn "c1")
          ((applyEdit abSession (mkInsertMsg "XY" 1) 0).2) 0
          (fun _ => true)).session.content = abSession.content)) :=
  ⟨rfl, rfl, by decide, by decide,
    undo_structural_inverse abSession (mkInsertMsg "XY" 1) mkUndoMsg
      (sampleConn "c1") 0 0 (fun _ => true) (mkInsertOp "XY" 1) 1 rfl rfl
      (by decide) (by decide)⟩

/-- A rate-limit check below both ceilings, with all stored timestamps inside
both windows, allows the message and appends its timestamp. -/
theorem checkRateLimit_ok (l : List ℚ) (now : ℚ)
    (hmin : ∀ x ∈ l, now - 60 < x) (hsec : ∀ x ∈ l, now - 1 < x)
    (hlen : l.length < 10) :
    checkRateLimit 10 500 l now = (true, none, l ++ [now]) := by
  have h1 : l.filter (fun t => decide (now - 60 < t)) = l :=
    List.filter_eq_self.mpr (fun x hx => by simp [hmin x hx])
  have h2 : l.filter (fun t => decide (now - 1 < t)) = l :=
    List.filter_eq_self.mpr (fun x hx => by simp [hsec x hx])
  simp only [checkRateLimit, h1, h2]
  rw [if_neg (by omega), if_neg (by omega)]

/-- A rate-limit check at or above the per-second ceiling (but below the
per-minute ceiling), with all stored timestamps inside both windows, rejects
the message with the per-second reason and stores the pruned list
unchanged. -/
theorem checkRateLimit_reject_sec (l : List ℚ) (now : ℚ)
    (hmin : ∀ x ∈ l, now - 60 < x) (hsec : ∀ x ∈ l, now - 1 < x)
    (h10 : 10 ≤ l.length) (h500 : l.length < 500) :
    checkRateLimit 10 500 l now
      = (false, some "Rate limit exceeded (per second)", l) := by
  have h1 : l.filter (fun t => decide (now - 60 < t)) = l :=
    List.filter_eq_self.mpr (fun x hx => by simp [hmin x hx])
  have h2 : l.filter (fun t => decide (now - 1 < t)) = l :=
    List.filter_eq_self.mpr (fun x hx => by simp [hsec x hx])
  simp only [checkRateLimit, h1, h2]
  rw [if_neg (by omega), if_pos (by omega)]

/-- Messages all falling inside one common one-second window are allowed as
long as the stored count stays below the per-second ceiling, and each is
recorded in arrival order. -/
theorem runLimiter_all_ok (arr : List ℚ) (T : ℚ) : ∀ (state : List ℚ),
    (∀ t ∈ state, T ≤ t ∧ t < T + 1) → (∀ t ∈ arr, T ≤ t ∧ t < T + 1) →
    state.length + arr.length ≤ 10 →
    runLimiter state arr = (List.replicate arr.length true, state ++ arr) := by
  induction arr with
  | nil =>
    intro state _ _ _
    simp [runLimiter]
  | cons t rest ih =>
    intro state hs ha hl
    have ht := ha t (List.mem_cons_self _ _)
    have hck : checkRateLimit 10 500 state t = (true, none, state ++ [t]) := by
      apply checkRateLimit_ok
      · intro x hx
        have hx2 := hs x hx
        linarith [ht.1, ht.2, hx2.1, hx2.2]
      · intro x hx
        have hx2 := hs x hx
        linarith [ht.1, ht.2, hx2.1, hx2.2]
      · simp only [List.length_cons] at hl
        omega
    have hs2 : ∀ x ∈ state ++ [t], T ≤ x ∧ x < T + 1 := by
      intro x hx
      rcases List.mem_append.mp hx with h | h
      · exact hs x h
      · rw [List.mem_singleton.mp h]
        exact ht
    have hrest := ih (state ++ [t]) hs2
      (fun x hx => ha x (List.mem_cons_of_mem _ hx))
      (by
        simp only [List.length_append, List.length_cons, List.length_nil] at hl ⊢
        omega)
    simp only [runLimiter, hck, hrest, List.length_cons, List.replicate_succ,
      List.append_assoc, List.singleton_append]

/-- Claim C6: with the per-second ceiling of 10, ten messages from one
(user, session) pair arriving inside one common one-second window are all
allowed, an eleventh message inside the same window is rejected with the
per-second rate-limit reason (leaving the stored window unchanged), and once
a full second has passed past every stored timestamp a new message is
allowed again. -/
theorem rate_limit_window (pre : List ℚ) (t11 t2 T : ℚ)
    (hn : pre.length = 10)
    (hpre : ∀ t ∈ pre, T ≤ t ∧ t < T + 1)
    (h11 : T ≤ t11 ∧ t11 < T + 1)
    (hroll : ∀ t ∈ pre, t + 1 ≤ t2) :
    (runLimiter [] pre).1 = List.replicate 10 true
  ∧ (runLimiter [] pre).2 = pre
  ∧ (checkRateLimit 10 500 pre t11).1 = false
  ∧ (checkRateLimit 10 500 pre t11).2.1
      = some "Rate limit exceeded (per second)"
  ∧ (checkRateLimit 10 500 pre t11).2.2 = pre
  ∧ (checkRateLimit 10 500 pre t2).1 = true := by
  have hrun := runLimiter_all_ok pre T [] (by simp) hpre
    (by simp only [List.length_nil]; omega)
  have hrej := checkRateLimit_reject_sec pre t11
    (fun x hx => by
      have hx2 := hpre x hx
      linarith [h11.1, h11.2, hx2.1, hx2.2])
    (fun x hx => by
      have hx2 := hpre x hx
      linarith [h11.1, h11.2, hx2.1, hx2.2])
    (by omega) (by omega)
  refine ⟨by rw [hrun, hn], by rw [hrun]; rfl, by rw [hrej], by rw [hrej],
    by rw [hrej], ?_⟩
  have h1 : (pre.filter (fun t => decide (t2 - 60 < t))).length
      ≤ pre.length := List.length_filter_le _ _
  have h2 : (pre.filter (fun t => decide (t2 - 60 < t))).filter
      (fun t => decide (t2 - 1 < t)) = [] := by
    rw [List.filter_eq_nil_iff]
    intro x hx
    have hxp : x ∈ pre := List.mem_of_mem_filter hx
    have hx2 := hroll x hxp
    simp only [decide_eq_true_eq]
    linarith
  simp only [checkRateLimit, h2]
  rw [if_neg (by omega)]
  rw [if_neg (by simp)]

/-- All of ten zero timestamps lie inside the window starting at 0. -/
theorem hwindow_zero : ∀ t ∈ List.replicate 10 (0 : ℚ), (0 : ℚ) ≤ t ∧ t < 0 + 1 := by
  intro t ht
  rw [List.eq_of_mem_replicate ht]
  constructor
  · exact le_refl 0
  · simp

/-- Each zero timestamp has rolled out of the window by time 2. -/
theorem hroll_zero : ∀ t ∈ List.replicate 10 (0 : ℚ), t + 1 ≤ (2 : ℚ) := by
  intro t ht
  rw [List.eq_of_mem_replicate ht]
  norm_num

/-- Witness for the C6 theorem with ten messages at time 0, an eleventh at
time 0 and a later message at time 2. -/
theorem rate_limit_window_witness :
    (List.replicate 10 (0 : ℚ)).length = 10
  ∧ (∀ t ∈ List.replicate 10 (0 : ℚ), (0 : ℚ) ≤ t ∧ t < 0 + 1)
  ∧ ((0 : ℚ) ≤ 0 ∧ (0 : ℚ) < 0 + 1)
  ∧ (∀ t ∈ List.replicate 10 (0 : ℚ), t + 1 ≤ (2 : ℚ))
  ∧ ((runLimiter [] (List.replicate 10 (0 : ℚ))).1 = List.replicate 10 true
    ∧ (runLimiter [] (List.replicate 10 (0 : ℚ))).2 = List.replicate 10 (0 : ℚ)
    ∧ (checkRateLimit 10 500 (List.replicate 10 (0 : ℚ)) 0).1 = false
    ∧ (checkRateLimit 10 500 (List.replicate 10 (0 : ℚ)) 0).2.1
        = some "Rate limit exceeded (per second)"
    ∧ (checkRateLimit 10 500 (List.replicate 10 (0 : ℚ)) 0).2.2
        = List.replicate 10 (0 : ℚ)
    ∧ (checkRateLimit 10 500 (List.replicate 10 (0 : ℚ)) 2).1 = true) :=
  ⟨by simp, hwindow_zero, ⟨le_refl 0, by simp⟩, hroll_zero,
    rate_limit_window (List.replicate 10 (0 : ℚ)) 0 2 0 (by simp)
      hwindow_zero ⟨le_refl 0, by simp⟩ hroll_zero⟩

/-- Claim C7: a session that has reached the participant cap of 100 rejects
a further add_connection (returning failure and leaving the session
unchanged), and the manager-level connect on such a session yields no
connection, leaves every session lookup unchanged, and does not touch the
user index. -/
theorem session_full_reject (m : WebSocketConnectionManager)
    (sid uid cid : String) (now : ℚ) (s : CollaborationSession)
    (hs : dictFind m.sessions sid = some s)
    (hcap : 100 ≤ s.connections.length) :
    addConnection s (newUserConnection uid sid cid now) now = (false, s)
  ∧ (managerConnect m sid uid cid now).1 = none
  ∧ (∀ x, dictFind (managerConnect m sid uid cid now).2.sessions x
      = dictFind m.sessions x)
  ∧ (managerConnect m sid uid cid now).2.userConnections
      = m.userConnections := by
  have hadd : addConnection s (newUserConnection uid sid cid now) now
      = (false, s) := by
    simp [addConnection, hcap]
  refine ⟨hadd, ?_, ?_, ?_⟩
  · simp [managerConnect, hs, hadd]
  · intro x
    simp only [managerConnect, hs, hadd]
    exact dictFind_dictSet_of_found m.sessions sid s hs x
  · simp [managerConnect, hs, hadd]

/-- Witness for the C7 theorem at a manager holding a session with 100
registered connections. -/
theorem session_full_reject_witness :
    dictFind fullManager.sessions "s1" = some fullSession
  ∧ 100 ≤ fullSession.connections.length
  ∧ (addConnection fullSession (newUserConnection "bob" "s1" "c9" 0) 0
        = (false, fullSession)
    ∧ (managerConnect fullManager "s1" "bob" "c9" 0).1 = none
    ∧ (∀ x, dictFind (managerConnect fullManager "s1" "bob" "c9" 0).2.sessions x
        = dictFind fullManager.sessions x)
    ∧ (managerConnect fullManager "s1" "bob" "c9" 0).2.userConnections
        = fullManager.userConnections) :=
  ⟨rfl, by decide,
    session_full_reject fullManager "s1" "bob" "c9" 0 fullSession rfl
      (by decide)⟩

/-- An entry keyed differently from the replaced key survives `dictReplace`
unchanged. -/
theorem mem_dictReplace_of_ne {α : Type} (l : List (String × α)) (k : String)
    (v : α) (cid : String) (c : α) (hmem : (cid, c) ∈ l) (hne : cid ≠ k) :
    (cid, c) ∈ dictReplace l k v := by
  have h := List.mem_map_of_mem (fun kv => if kv.1 = k then (k, v) else kv) hmem
  simpa [dictReplace, if_neg hne] using h

/-- Claim C8: a successfully applied edit succeeds, its broadcast makes no
send attempt to the sender's own connection, and under duplicate-free
connection ids it makes exactly one send attempt to every other registered
connection that passes the liveness check at broadcast time. -/
theorem edit_broadcast_exclusion (msg : Message) (conn : UserConnection)
    (s : CollaborationSession) (now : ℚ) (sendOk : String → Bool)
    (hne : conn.connectionId ≠ "")
    (hnd : (s.connections.map Prod.fst).Nodup) :
    (handleEdit msg conn s now sendOk).ok = true
  ∧ conn.connectionId
      ∉ (handleEdit msg conn s now sendOk).broadcastSends.map Prod.fst
  ∧ ∀ cid c, (cid, c) ∈ s.connections → cid ≠ conn.connectionId →
      c.isActive now 300 = true →
      ((handleEdit msg conn s now sendOk).broadcastSends.map Prod.fst).count
        cid = 1 := by
  have hb : (handleEdit msg conn s now sendOk).broadcastSends
      = (broadcastRun (dictReplace s.connections conn.connectionId
          (if sendOk conn.connectionId then { conn with lastActivity := now }
           else conn)) (some conn.connectionId) now sendOk).2 := by
    simp [handleEdit, applyEdit, broadcastMessage]
  refine ⟨by simp [handleEdit, applyEdit], ?_, ?_⟩
  · rw [hb]
    exact broadcastRun_excluded _ _ _ _ hne
  · intro cid c hmem hcid hact
    rw [hb]
    apply broadcastRun_count_live
    · rw [dictReplace_keys]
      exact hnd
    · exact mem_dictReplace_of_ne s.connections conn.connectionId _ cid c
        hmem hcid
    · simp [broadcastSkip, hne, hcid]
    · exact hact

/-- A session fixture holding two distinct connections. -/
def twoConnSession : CollaborationSession :=
  { freshSession with
    connections := [("c1", sampleConn "c1"), ("c2", sampleConn "c2")] }

/-- Witness for the C8 theorem on a session with two connections. -/
theorem edit_broadcast_exclusion_witness :
    (sampleConn "c1").connectionId ≠ ""
  ∧ (twoConnSession.connections.map Prod.fst).Nodup
  ∧ ((handleEdit (mkInsertMsg "Hello" 0) (sampleConn "c1") twoConnSession 0
        (fun _ => true)).ok = true
    ∧ (sampleConn "c1").connectionId
        ∉ (handleEdit (mkInsertMsg "Hello" 0) (sampleConn "c1") twoConnSession
            0 (fun _ => true)).broadcastSends.map Prod.fst
    ∧ ∀ cid c, (cid, c) ∈ twoConnSession.connections →
        cid ≠ (sampleConn "c1").connectionId →
        c.isActive 0 300 = true →
        ((handleEdit (mkInsertMsg "Hello" 0) (sampleConn "c1") twoConnSession
            0 (fun _ => true)).broadcastSends.map Prod.fst).count cid = 1) :=
  ⟨by decide, by decide,
    edit_broadcast_exclusion (mkInsertMsg "Hello" 0) (sampleConn "c1")
      twoConnSession 0 (fun _ => true) (by decide) (by decide)⟩

/-- Claim C9: a presence message succeeds, leaves the session's content
buffer, version counter, edit history and comment collection untouched
(nothing is appended to the history), sends nothing directly back to the
sender, broadcasts excluding the sender's connection, and a cursor presence
updates exactly the sender connection's cursor metadata. -/
theorem presence_frame (msg : Message) (conn : UserConnection)
    (s : CollaborationSession) (now : ℚ) (sendOk : String → Bool)
    (hne : conn.connectionId ≠ "") :
    (handlePresence msg conn s now sendOk).ok = true
  ∧ (handlePresence msg conn s now sendOk).session.content = s.content
  ∧ (handlePresence msg conn s now sendOk).session.version = s.version
  ∧ (handlePresence msg conn s now sendOk).session.editHistory = s.editHistory
  ∧ (handlePresence msg conn s now sendOk).session.comments = s.comments
  ∧ (handlePresence msg conn s now sendOk).senderSends = []
  ∧ conn.connectionId
      ∉ (handlePresence msg conn s now sendOk).broadcastSends.map Prod.fst
  ∧ (msg.data.presenceType = some "cursor" →
      (handlePresence msg conn s now sendOk).conn
        = { conn with cursorLine := msg.data.line.getD 0,
                      cursorColumn := msg.data.column.getD 0 }) := by
  refine ⟨rfl, ?_, ?_, ?_, ?_, rfl, ?_, ?_⟩
  · simp [handlePresence, broadcastMessage]
  · simp [handlePresence, broadcastMessage]
  · simp [handlePresence, broadcastMessage]
  · simp [handlePresence, broadcastMessage]
  · simp only [handlePresence, broadcastMessage]
    exact broadcastRun_excluded _ _ _ _ hne
  · intro hcur
    simp [handlePresence, hcur]

/-- Witness for the C9 theorem at a concrete cursor presence message. -/
theorem presence_frame_witness :
    (sampleConn "c1").connectionId ≠ ""
  ∧ ((handlePresence (mkCursorMsg 3 4) (sampleConn "c1") twoConnSession 0
        (fun _ => true)).ok = true
    ∧ (handlePresence (mkCursorMsg 3 4) (sampleConn "c1") twoConnSession 0
        (fun _ => true)).session.content = twoConnSession.content
    ∧ (handlePresence (mkCursorMsg 3 4) (sampleConn "c1") twoConnSession 0
        (fun _ => true)).session.version = twoConnSession.version
    ∧ (handlePresence (mkCursorMsg 3 4) (sampleConn "c1") twoConnSession 0
        (fun _ => true)).session.editHistory = twoConnSession.editHistory
    ∧ (handlePresence (mkCursorMsg 3 4) (sampleConn "c1") twoConnSession 0
        (fun _ => true)).session.comments = twoConnSession.comments
    ∧ (handlePresence (mkCursorMsg 3 4) (sampleConn "c1") twoConnSession 0
        (fun _ => true)).senderSends = []
    ∧ (sampleConn "c1").connectionId
        ∉ (handlePresence (mkCursorMsg 3 4) (sampleConn "c1") twoConnSession 0
            (fun _ => true)).broadcastSends.map Prod.fst
    ∧ ((mkCursorMsg 3 4).data.presenceType = some "cursor" →
        (handlePresence (mkCursorMsg 3 4) (sampleConn "c1") twoConnSession 0
            (fun _ => true)).conn
          = { sampleConn "c1" with
              cursorLine := (mkCursorMsg 3 4).data.line.getD 0,
              cursorColumn := (mkCursorMsg 3 4).data.column.getD 0 })) :=
  ⟨by decide,
    presence_frame (mkCursorMsg 3 4) (sampleConn "c1") twoConnSession 0
      (fun _ => true) (by decide)⟩

/-- Claim C10: a reply or resolve comment message whose comment id matches no
existing comment leaves the comment collection completely unchanged, yet
still returns success, produces no error reply to the sender, and still
broadcasts the reply/resolve message to every live participant (the sender
included). -/
theorem unknown_comment_id_noop (msg : Message) (conn : UserConnection)
    (s : CollaborationSession) (now : ℚ) (freshId : String)
    (sendOk : String → Bool)
    (hct : msg.data.commentType = some "reply"
      ∨ msg.data.commentType = some "resolve")
    (hmiss : ∀ c ∈ s.comments, msg.data.commentId ≠ some c.id) :
    (handleComment msg conn s now freshId sendOk).ok = true
  ∧ (handleComment msg conn s now freshId sendOk).session.comments
      = s.comments
  ∧ (handleComment msg conn s now freshId sendOk).senderSends = []
  ∧ (handleComment msg conn s now freshId sendOk).broadcastMsg.isSome = true
  ∧ ∀ cid c, (cid, c) ∈ s.connections → c.isActive now 300 = true →
      cid ∈ (handleComment msg conn s now freshId sendOk).broadcastSends.map
        Prod.fst := by
  rcases hct with hct | hct
  · refine ⟨?_, ?_, ?_, ?_, ?_⟩
    · simp [handleComment, hct]
    · simp [handleComment, hct, broadcastMessage,
        updateFirstComment_no_match s.comments msg.data.commentId _ hmiss]
    · simp [handleComment, hct]
    · simp [handleComment, hct]
    · intro cid c hmem hact
      simp only [handleComment, hct, broadcastMessage]
      simp only [Option.some.injEq, String.reduceEq, if_false, if_true,
        reduceIte]
      exact broadcastRun_none_mem _ _ _ cid c hmem hact
  · refine ⟨?_, ?_, ?_, ?_, ?_⟩
    · simp [handleComment, hct]
    · simp [handleComment, hct, broadcastMessage,
        updateFirstComment_no_match s.comments msg.data.commentId _ hmiss]
    · simp [handleComment, hct]
    · simp [handleComment, hct]
    · intro cid c hmem hact
      simp only [handleComment, hct, broadcastMessage]
      simp only [Option.some.injEq, String.reduceEq, if_false, if_true,
        reduceIte]
      exact broadcastRun_none_mem _ _ _ cid c hmem hact

/-- A comment fixture with id "k1". -/
def sampleComment : SessionComment :=
  { id := "k1", userId := "bob", line := 1, text := "t", resolved := false,
    createdAt := 0, replies := [] }

/-- A session fixture with two connections and one comment whose id is
"k1". -/
def commentedSession : CollaborationSession :=
  { twoConnSession with comments := [sampleComment] }

/-- Witness for the C10 theorem at a reply aimed at a nonexistent comment
id. -/
theorem unknown_comment_id_noop_witness :
    ((mkCommentMsg "reply" "nope").data.commentType = some "reply"
      ∨ (mkCommentMsg "reply" "nope").data.commentType = some "resolve")
  ∧ (∀ c ∈ commentedSession.comments,
      (mkCommentMsg "reply" "nope").data.commentId ≠ some c.id)
  ∧ ((handleComment (mkCommentMsg "reply" "nope") (sampleConn "c1")
        commentedSession 0 "f" (fun _ => true)).ok = true
    ∧ (handleComment (mkCommentMsg "reply" "nope") (sampleConn "c1")
        commentedSession 0 "f" (fun _ => true)).session.comments
        = commentedSession.comments
    ∧ (handleComment (mkCommentMsg "reply" "nope") (sampleConn "c1")
        commentedSession 0 "f" (fun _ => true)).senderSends = []
    ∧ (handleComment (mkCommentMsg "reply" "nope") (sampleConn "c1")
        commentedSession 0 "f" (fun _ => true)).broadcastMsg.isSome = true
    ∧ ∀ cid c, (cid, c) ∈ commentedSession.connections →
        c.isActive 0 300 = true →
        cid ∈ (handleComment (mkCommentMsg "reply" "nope") (sampleConn "c1")
          commentedSession 0 "f" (fun _ => true)).broadcastSends.map
            Prod.fst) :=
  ⟨Or.inl rfl, by decide,
    unknown_comment_id_noop (mkCommentMsg "reply" "nope") (sampleConn "c1")
      commentedSession 0 "f" (fun _ => true) (Or.inl rfl) (by decide)⟩
